import Mathlib

/-!
Verification development for the SingleApplication private implementation
(`singleapplication_p.cpp` / `singleapplication_p.h`).

Bytes are modelled as `Nat` values (serializers produce values below 256 by
construction).  Machine integers are modelled as `Nat`/`Int` with explicit
reductions modulo `2 ^ w` where the C++ code uses fixed-width arithmetic.
Qt collaborators used by the code (`QDataStream` big-endian serialization,
`qChecksum`, `QCryptographicHash::Sha256`, `QByteArray::toBase64`) are
embedded concretely below, following their documented behaviour.
-/

set_option maxRecDepth 4096

/-! ## Byte serialization (QDataStream, big-endian by default) -/

/-- One byte, as `QDataStream << quint8` writes it (value reduced mod 256). -/
def u8 (n : Nat) : List Nat := [n % 256]

/-- Big-endian 2-byte encoding, as `QDataStream << quint16` writes it. -/
def u16be (n : Nat) : List Nat := [n / 256 % 256, n % 256]

/-- Big-endian 4-byte encoding, as `QDataStream << quint32` writes it. -/
def u32be (n : Nat) : List Nat :=
  [n / 16777216 % 256, n / 65536 % 256, n / 256 % 256, n % 256]

/-- Big-endian 8-byte encoding, as `QDataStream << quint64` writes it. -/
def u64be (n : Nat) : List Nat :=
  [n / 72057594037927936 % 256, n / 281474976710656 % 256,
   n / 1099511627776 % 256, n / 4294967296 % 256,
   n / 16777216 % 256, n / 65536 % 256, n / 256 % 256, n % 256]

/-- `QDataStream << QByteArray`: a 4-byte big-endian length field followed by
the raw bytes (the non-null case; `blockServerName.toLatin1()` is non-null). -/
def qbaPut (b : List Nat) : List Nat := u32be b.length ++ b

/-! ## Checksum Utility: Qt `qChecksum` (CRC-16, ISO 3309 variant)

The code calls Qt's `qChecksum` for both the Identity Block checksum and the
handshake body checksum.  This is the nibble-table CRC-16 from Qt's
`qbytearray.cpp` with initial value 0xffff and final complement. -/

def crcTbl : List Nat :=
  [0x0000, 0x1081, 0x2102, 0x3183, 0x4204, 0x5285, 0x6306, 0x7387,
   0x8408, 0x9489, 0xa50a, 0xb58b, 0xc60c, 0xd68d, 0xe70e, 0xf78f]

/-- One CRC nibble step: `crc = ((crc >> 4) & 0x0fff) ^ crc_tbl[(crc ^ c) & 15]`. -/
def crcNibble (crc c : Nat) : Nat :=
  ((crc >>> 4) &&& 0x0fff) ^^^ crcTbl.getD ((crc ^^^ c) &&& 15) 0

/-- Qt `qChecksum` over a byte sequence: low nibble then high nibble of each
byte, initial value 0xffff, complemented and masked to 16 bits at the end. -/
def qChecksum (data : List Nat) : Nat :=
  let crc := data.foldl (fun crc b => crcNibble (crcNibble crc b) (b >>> 4)) 0xffff
  (crc ^^^ 0xffff) &&& 0xffff

theorem qChecksum_lt (data : List Nat) : qChecksum data < 65536 :=
  Nat.lt_succ_of_le (Nat.and_le_right)

/-! ## Client-side handshake body (`connectToPrimary`, lines 239-251)

The initialisation message is written through a `QDataStream`:
`writeStream << blockServerName.toLatin1()` (length-prefixed byte array),
`<< quint8(connectionType)`, `<< quint32(instanceNumber)`, and finally the
2-byte `qChecksum` of everything written so far. -/

/-- The handshake body `initMsg` exactly as `connectToPrimary` builds it.
`name` is `blockServerName.toLatin1()`, `tyVal` the `quint8` connection type
value, `inst` the `quint32` instance number. -/
def initMsg (name : List Nat) (tyVal inst : Nat) : List Nat :=
  let m := qbaPut name ++ u8 tyVal ++ u32be (inst % 4294967296)
  m ++ u16be (qChecksum m)

/-- Modelled from the spec words of section 4.4 and claim C5: the handshake
body as the claim states it, starting directly with the rendezvous name raw
bytes (no length field).  Declared only to be compared against `initMsg`. -/
def specInitBody (name : List Nat) (tyVal inst : Nat) : List Nat :=
  let m := name ++ u8 tyVal ++ u32be (inst % 4294967296)
  m ++ u16be (qChecksum m)

theorem initMsg_length (name : List Nat) (tyVal inst : Nat) :
    (initMsg name tyVal inst).length = name.length + 11 := by
  simp [initMsg, qbaPut, u8, u16be, u32be]

/-! ## Byte deserialization (server-side QDataStream reads)

Each reader returns `none` when too few bytes remain, mirroring
`QDataStream` entering the `ReadPastEnd` status. -/

def readU8 : List Nat → Option (Nat × List Nat)
  | a :: rest => some (a, rest)
  | _ => none

def readU16 : List Nat → Option (Nat × List Nat)
  | a :: b :: rest => some (a * 256 + b, rest)
  | _ => none

def readU32 : List Nat → Option (Nat × List Nat)
  | a :: b :: c :: d :: rest => some (((a * 256 + b) * 256 + c) * 256 + d, rest)
  | _ => none

def readU64 : List Nat → Option (Nat × List Nat)
  | a :: b :: c :: d :: e :: f :: g :: h :: rest =>
      some (a * 72057594037927936 + b * 281474976710656 + c * 1099511627776 +
        d * 4294967296 + e * 16777216 + f * 65536 + g * 256 + h, rest)
  | _ => none

/-- `QDataStream >> QByteArray`: read the 4-byte length, then that many raw
bytes; `none` when fewer bytes remain (status `ReadPastEnd`). -/
def readQba (bytes : List Nat) : Option (List Nat × List Nat) :=
  match readU32 bytes with
  | none => none
  | some (n, rest) =>
      if rest.length < n then none else some (rest.take n, rest.drop n)

/-- The four reads of `readInitMessageBody` (lines 416-432): the Latin-1
server name, the `quint8` connection type, the `quint32` instance id and the
`quint16` transmitted checksum.  `none` means the stream status is not `Ok`,
which makes the message invalid. -/
def parseInit (bytes : List Nat) : Option (List Nat × Nat × Nat × Nat) :=
  match readQba bytes with
  | none => none
  | some (nm, r1) =>
    match readU8 r1 with
    | none => none
    | some (ty, r2) =>
      match readU32 r2 with
      | none => none
      | some (iid, r3) =>
        match readU16 r3 with
        | none => none
        | some (ck, _) => some (nm, ty, iid, ck)

/-! ### Round-trip lemmas for the serializers -/

theorem readU8_u8 (n : Nat) (r : List Nat) (h : n < 256) :
    readU8 (u8 n ++ r) = some (n, r) := by
  simp [u8, readU8, Nat.mod_eq_of_lt h]

theorem readU16_u16be (n : Nat) (r : List Nat) (h : n < 65536) :
    readU16 (u16be n ++ r) = some (n, r) := by
  simp only [u16be, List.cons_append, List.nil_append, readU16, Option.some.injEq,
    Prod.mk.injEq, and_true]
  omega

theorem readU32_u32be (n : Nat) (r : List Nat) (h : n < 4294967296) :
    readU32 (u32be n ++ r) = some (n, r) := by
  simp only [u32be, List.cons_append, List.nil_append, readU32, Option.some.injEq,
    Prod.mk.injEq, and_true]
  omega

theorem readU64_u64be (n : Nat) (r : List Nat) (h : n < 18446744073709551616) :
    readU64 (u64be n ++ r) = some (n, r) := by
  simp only [u64be, List.cons_append, List.nil_append, readU64, Option.some.injEq,
    Prod.mk.injEq, and_true]
  omega

theorem readU16_u16be_nil (n : Nat) (h : n < 65536) :
    readU16 (u16be n) = some (n, []) := by
  have := readU16_u16be n [] h
  simpa using this

theorem readQba_qbaPut (b r : List Nat) (h : b.length < 4294967296) :
    readQba (qbaPut b ++ r) = some (b, r) := by
  simp only [qbaPut, List.append_assoc, readQba, readU32_u32be b.length (b ++ r) h]
  simp [List.take_left, List.drop_left]

/-- Parsing the handshake body produced by `initMsg` recovers exactly the
fields the client wrote. -/
theorem parseInit_initMsg (name : List Nat) (tyVal inst : Nat)
    (hn : name.length < 4294967296) (ht : tyVal < 256) (hi : inst < 4294967296) :
    parseInit (initMsg name tyVal inst) =
      some (name, tyVal, inst, qChecksum (qbaPut name ++ u8 tyVal ++ u32be inst)) := by
  have hmod : inst % 4294967296 = inst := Nat.mod_eq_of_lt hi
  simp only [parseInit, initMsg, hmod, List.append_assoc, readQba_qbaPut _ _ hn,
    readU8_u8 _ _ ht, readU32_u32be _ _ hi, readU16_u16be_nil _ (qChecksum_lt _)]

/-! ## Connection State Machine, server role (primary side)

One accepted connection is modelled by its `ConnectionInfo` record (the
`connectionMap` entry of `singleapplication_p.h`), the bytes currently
available on its socket, and whether the socket has been closed.  Events
emitted to the owning `SingleApplication` are collected in a list; each
acknowledgement byte written with `writeAck` is counted. -/

inductive ConnectionStage
  | StageInitHeader
  | StageInitBody
  | StageConnectedHeader
  | StageConnectedBody
deriving DecidableEq

/-- Reinterpretation of a `quint64` value as a `qint64` (two's complement):
values at or above 2^63 become negative. -/
def toQint64 (v : Nat) : Int :=
  let m := v % 18446744073709551616
  if m < 9223372036854775808 then (m : Int) else (m : Int) - 18446744073709551616

/-- The `ConnectionInfo` struct: announced message length as the `qint64`
field the header declares (so an announced `quint64` length at or above
2^63 is stored negative), instance id of the remote secondary, and the
protocol stage. -/
structure ConnectionInfo where
  msgLen : Int
  instanceId : Nat
  stage : ConnectionStage
deriving DecidableEq

/-- A server-side connection: its map entry, the bytes available for reading
on its socket, and whether the server has closed the socket. -/
structure ServerConn where
  info : ConnectionInfo
  buf : List Nat
  closed : Bool
deriving DecidableEq

/-- Signals emitted by the primary to the owning application. -/
inductive AppEvent
  | instanceStarted
  | receivedMessage (instanceId : Nat) (payload : List Nat)
deriving DecidableEq

/-- Server-side configuration: the rendezvous name (`blockServerName` as
Latin-1 bytes) and whether `SingleApplication::Mode::SecondaryNotification`
is set in `options`. -/
structure ServerEnv where
  serverName : List Nat
  secondaryNotify : Bool

/-- `isFrameComplete` (lines 391-403): incomplete while
`bytesAvailable() < static_cast<qint64>(info.msgLen)`, complete otherwise —
in particular a negative (wrapped) stored length counts as complete at
once. -/
def isFrameComplete (conn : ServerConn) : Bool :=
  decide (conn.info.msgLen ≤ (conn.buf.length : Int))

/-- `readMessageHeader` (lines 369-389): with fewer than 8 bytes available
nothing happens; otherwise the 8-byte big-endian `quint64` length is
consumed, the stage advances to `nextStage`, the length is stored into the
`qint64` field `msgLen` (wrapping values at or above 2^63 to negative) and
one ack byte is written.  Result: updated connection, emitted events, ack
bytes written. -/
def readMessageHeader (conn : ServerConn) (nextStage : ConnectionStage) :
    ServerConn × List AppEvent × Nat :=
  match readU64 conn.buf with
  | none => (conn, [], 0)
  | some (msgLen, rest) =>
      ({conn with buf := rest,
                  info := {conn.info with stage := nextStage,
                                          msgLen := toQint64 msgLen}},
       [], 1)

/-- `readInitMessageBody` (lines 405-458): once the announced frame is
complete, `readAll` consumes the whole socket buffer, the four handshake
fields are read back, and the message is valid iff the stream status is Ok,
the transmitted name equals the server name, and the transmitted checksum
equals `qChecksum` of all bytes that precede the 2-byte checksum field.  A
valid handshake records the instance id, advances to
`StageConnectedHeader`, emits `instanceStarted` for a `NewInstance` (value
1) or, when secondary notifications are enabled, a `SecondaryInstance`
(value 2), and writes one ack byte.  An invalid one closes the socket with
no ack and no event. -/
def readInitMessageBody (env : ServerEnv) (conn : ServerConn) :
    ServerConn × List AppEvent × Nat :=
  if isFrameComplete conn = false then (conn, [], 0)
  else
    let msgBytes := conn.buf
    let conn1 := {conn with buf := []}
    match parseInit msgBytes with
    | none => ({conn1 with closed := true}, [], 0)
    | some (nm, ty, iid, ck) =>
        let actual := qChecksum (msgBytes.take (msgBytes.length - 2))
        if nm = env.serverName ∧ ck = actual then
          ({conn1 with
              info := {conn1.info with instanceId := iid,
                                       stage := ConnectionStage.StageConnectedHeader}},
           if ty = 1 ∨ (ty = 2 ∧ env.secondaryNotify = true) then
             [AppEvent.instanceStarted]
           else [], 1)
        else ({conn1 with closed := true}, [], 0)

/-- `slotDataAvailable` (lines 460-473): once the announced frame is
complete, `readAll` drains the buffer, the payload is delivered through
`receivedMessage` tagged with the instance id recorded at handshake, one
ack byte is written and the stage resets to `StageConnectedHeader`. -/
def slotDataAvailable (conn : ServerConn) : ServerConn × List AppEvent × Nat :=
  if isFrameComplete conn = false then (conn, [], 0)
  else
    ({conn with buf := [],
                info := {conn.info with stage := ConnectionStage.StageConnectedHeader}},
     [AppEvent.receivedMessage conn.info.instanceId conn.buf], 1)

/-- The `readyRead` dispatch of `slotConnectionEstablished` (lines 348-366):
the handler selected by the current stage. -/
def dispatchReadyRead (env : ServerEnv) (conn : ServerConn) :
    ServerConn × List AppEvent × Nat :=
  match conn.info.stage with
  | ConnectionStage.StageInitHeader =>
      readMessageHeader conn ConnectionStage.StageInitBody
  | ConnectionStage.StageInitBody => readInitMessageBody env conn
  | ConnectionStage.StageConnectedHeader =>
      readMessageHeader conn ConnectionStage.StageConnectedBody
  | ConnectionStage.StageConnectedBody => slotDataAvailable conn

/-- Arrival of one chunk of bytes on the connection: a closed socket emits
no further `readyRead` signals; an open one appends the chunk to the
available bytes and runs the stage dispatch. -/
def deliver (env : ServerEnv) (conn : ServerConn) (chunk : List Nat) :
    ServerConn × List AppEvent × Nat :=
  if conn.closed = true then (conn, [], 0)
  else dispatchReadyRead env {conn with buf := conn.buf ++ chunk}

/-- Successive arrivals of several chunks, accumulating the emitted events
and the ack bytes written. -/
def runDeliveries (env : ServerEnv) (conn : ServerConn) :
    List (List Nat) → ServerConn × List AppEvent × Nat
  | [] => (conn, [], 0)
  | c :: cs =>
      let r := deliver env conn c
      let rest := runDeliveries env r.1 cs
      (rest.1, r.2.1 ++ rest.2.1, r.2.2 + rest.2.2)

/-- A closed connection never processes anything again: no stage change, no
event, no ack, for any further arrivals. -/
theorem runDeliveries_closed (env : ServerEnv) (conn : ServerConn)
    (h : conn.closed = true) :
    ∀ cs, runDeliveries env conn cs = (conn, [], 0) := by
  intro cs
  induction cs with
  | nil => rfl
  | cons c cs ih => simp [runDeliveries, deliver, h, ih]

theorem readU64_u64be_nil (n : Nat) (h : n < 18446744073709551616) :
    readU64 (u64be n) = some (n, []) := by
  have := readU64_u64be n [] h
  simpa using this

/-- The stored `qint64` length never exceeds the announced `quint64`
value. -/
theorem toQint64_le_self (v : Nat) : toQint64 v ≤ (v : Int) := by
  simp only [toQint64]
  have h1 := Nat.mod_le v 18446744073709551616
  have h2 := Nat.mod_lt v (show 0 < 18446744073709551616 by omega)
  split <;> omega

theorem toQint64_mod_le (v : Nat) :
    toQint64 (v % 18446744073709551616) ≤ (v : Int) := by
  have h1 := toQint64_le_self (v % 18446744073709551616)
  have h2 := Nat.mod_le v 18446744073709551616
  have h3 : ((v % 18446744073709551616 : Nat) : Int) ≤ (v : Int) := by
    exact_mod_cast h2
  omega

/-- Receiving exactly an 8-byte header while awaiting the handshake header. -/
theorem deliver_initHeader (env : ServerEnv) (conn : ServerConn) (v : Nat)
    (hc : conn.closed = false) (hs : conn.info.stage = ConnectionStage.StageInitHeader)
    (hb : conn.buf = []) (hv : v < 18446744073709551616) :
    deliver env conn (u64be v) =
      ({conn with buf := [], info := {conn.info with stage := ConnectionStage.StageInitBody, msgLen := toQint64 v}}, [], 1) := by
  simp [deliver, hc, dispatchReadyRead, hs, hb, readMessageHeader,
    readU64_u64be_nil v hv]

/-- Receiving exactly an 8-byte header while awaiting a payload header. -/
theorem deliver_connHeader (env : ServerEnv) (conn : ServerConn) (v : Nat)
    (hc : conn.closed = false)
    (hs : conn.info.stage = ConnectionStage.StageConnectedHeader)
    (hb : conn.buf = []) (hv : v < 18446744073709551616) :
    deliver env conn (u64be v) =
      ({conn with buf := [], info := {conn.info with stage := ConnectionStage.StageConnectedBody, msgLen := toQint64 v}}, [], 1) := by
  simp [deliver, hc, dispatchReadyRead, hs, hb, readMessageHeader,
    readU64_u64be_nil v hv]

/-- All bytes of `initMsg` that precede its trailing 2-byte checksum field. -/
theorem initMsg_take (name : List Nat) (tyVal inst : Nat) (hi : inst < 4294967296) :
    (initMsg name tyVal inst).take ((initMsg name tyVal inst).length - 2) =
      qbaPut name ++ u8 tyVal ++ u32be inst := by
  have hmod : inst % 4294967296 = inst := Nat.mod_eq_of_lt hi
  have hlen : (qbaPut name ++ u8 tyVal ++ u32be inst).length = name.length + 9 := by
    simp [qbaPut, u8, u32be]
  rw [initMsg_length]
  show ((qbaPut name ++ u8 tyVal ++ u32be (inst % 4294967296)) ++
      u16be (qChecksum (qbaPut name ++ u8 tyVal ++ u32be (inst % 4294967296)))).take
      (name.length + 11 - 2) = qbaPut name ++ u8 tyVal ++ u32be inst
  rw [hmod]
  have h2 : name.length + 11 - 2 = (qbaPut name ++ u8 tyVal ++ u32be inst).length := by
    omega
  rw [h2, List.take_left]

/-- Receiving a well-formed matching handshake body while awaiting it:
the instance id is recorded, the stage advances, one ack is written, and
`instanceStarted` is emitted according to the connection type and the
secondary-notification option. -/
theorem deliver_initBody_valid (env : ServerEnv) (conn : ServerConn)
    (name : List Nat) (tyVal inst : Nat)
    (hc : conn.closed = false) (hs : conn.info.stage = ConnectionStage.StageInitBody)
    (hb : conn.buf = []) (henv : env.serverName = name)
    (hlen : conn.info.msgLen ≤ ((name.length + 11 : Nat) : Int))
    (hn : name.length < 4294967296) (ht : tyVal < 256) (hi : inst < 4294967296) :
    deliver env conn (initMsg name tyVal inst) =
      ({conn with buf := [], info := {conn.info with instanceId := inst, stage := ConnectionStage.StageConnectedHeader}},
       if tyVal = 1 ∨ (tyVal = 2 ∧ env.secondaryNotify = true) then
         [AppEvent.instanceStarted]
       else [], 1) := by
  have hcomplete : isFrameComplete ⟨conn.info, initMsg name tyVal inst, false⟩ = true := by
    simp [isFrameComplete, initMsg_length]
    exact hlen
  simp only [deliver, hc, Bool.false_eq_true, if_false, dispatchReadyRead, hs,
    readInitMessageBody, hcomplete, Bool.true_eq_false, if_false,
    hb, List.nil_append, parseInit_initMsg name tyVal inst hn ht hi,
    initMsg_take name tyVal inst hi, henv]
  simp

/-- Receiving a complete payload frame while awaiting it: the payload is
delivered byte-identical, tagged with the recorded instance id. -/
theorem deliver_connBody (conn : ServerConn) (env : ServerEnv) (payload : List Nat)
    (hc : conn.closed = false)
    (hs : conn.info.stage = ConnectionStage.StageConnectedBody)
    (hb : conn.buf = []) (hlen : conn.info.msgLen ≤ (payload.length : Int)) :
    deliver env conn payload =
      ({conn with buf := [], info := {conn.info with stage := ConnectionStage.StageConnectedHeader}},
       [AppEvent.receivedMessage conn.info.instanceId payload], 1) := by
  have hcomplete : isFrameComplete ⟨conn.info, payload, false⟩ = true := by
    simp [isFrameComplete]
    exact hlen
  simp [deliver, hc, dispatchReadyRead, hs, slotDataAvailable, hcomplete, hb]

/-- C1: a byte payload sent by a secondary after a successful handshake — a
header frame announcing the length, the handshake body, a payload header
frame, then the payload body, each frame acknowledged — is delivered by the
primary through `receivedMessage` byte-identical and tagged with that
secondary's `instanceNumber`, exactly the instance id recorded for the
connection at handshake time. -/
theorem payload_roundtrip_delivery (name payload : List Nat) (tyVal inst : Nat)
    (notify : Bool)
    (hn : name.length < 4294967296) (ht : tyVal < 256) (hi : inst < 4294967296) :
    runDeliveries ⟨name, notify⟩
      ⟨⟨0, 0, ConnectionStage.StageInitHeader⟩, [], false⟩
      [u64be ((initMsg name tyVal inst).length % 18446744073709551616),
       initMsg name tyVal inst,
       u64be (payload.length % 18446744073709551616),
       payload] =
      (⟨⟨toQint64 (payload.length % 18446744073709551616), inst,
         ConnectionStage.StageConnectedHeader⟩, [], false⟩,
       (if tyVal = 1 ∨ (tyVal = 2 ∧ notify = true) then [AppEvent.instanceStarted]
        else []) ++ [AppEvent.receivedMessage inst payload], 4) := by
  have hmod64 : ∀ k : Nat, k % 18446744073709551616 < 18446744073709551616 :=
    fun k => Nat.mod_lt _ (by omega)
  have e1 := deliver_initHeader ⟨name, notify⟩
    ⟨⟨0, 0, ConnectionStage.StageInitHeader⟩, [], false⟩
    ((initMsg name tyVal inst).length % 18446744073709551616)
    rfl rfl rfl (hmod64 _)
  have hlen2 : toQint64 ((initMsg name tyVal inst).length % 18446744073709551616) ≤
      ((name.length + 11 : Nat) : Int) := by
    calc toQint64 ((initMsg name tyVal inst).length % 18446744073709551616)
        ≤ ((initMsg name tyVal inst).length : Int) := toQint64_mod_le _
      _ = ((name.length + 11 : Nat) : Int) := by rw [initMsg_length]
  have e2 := deliver_initBody_valid ⟨name, notify⟩
    ⟨⟨toQint64 ((initMsg name tyVal inst).length % 18446744073709551616), 0,
      ConnectionStage.StageInitBody⟩, [], false⟩
    name tyVal inst rfl rfl rfl rfl hlen2 hn ht hi
  have e3 := deliver_connHeader ⟨name, notify⟩
    ⟨⟨toQint64 ((initMsg name tyVal inst).length % 18446744073709551616), inst,
      ConnectionStage.StageConnectedHeader⟩, [], false⟩
    (payload.length % 18446744073709551616)
    rfl rfl rfl (hmod64 _)
  have e4 := deliver_connBody
    ⟨⟨toQint64 (payload.length % 18446744073709551616), inst,
      ConnectionStage.StageConnectedBody⟩, [], false⟩
    ⟨name, notify⟩ payload rfl rfl rfl (toQint64_mod_le _)
  simp only [runDeliveries, e1, e2, e3, e4]
  simp

theorem payload_roundtrip_delivery_witness :
    [65].length < 4294967296 ∧ (1 : Nat) < 256 ∧ (1 : Nat) < 4294967296 ∧
    runDeliveries ⟨[65], false⟩
      ⟨⟨0, 0, ConnectionStage.StageInitHeader⟩, [], false⟩
      [u64be ((initMsg [65] 1 1).length % 18446744073709551616),
       initMsg [65] 1 1,
       u64be ([10, 20, 30].length % 18446744073709551616),
       [10, 20, 30]] =
      (⟨⟨toQint64 ([10, 20, 30].length % 18446744073709551616), 1,
         ConnectionStage.StageConnectedHeader⟩, [], false⟩,
       (if (1 : Nat) = 1 ∨ ((1 : Nat) = 2 ∧ false = true) then
          [AppEvent.instanceStarted]
        else []) ++ [AppEvent.receivedMessage 1 [10, 20, 30]], 4) :=
  ⟨by decide, by decide, by decide,
   payload_roundtrip_delivery [65] [10, 20, 30] 1 1 false (by decide) (by decide)
     (by decide)⟩

/-- C2: a handshake body whose transmitted checksum does not match the one
recomputed over the bytes preceding the checksum field, or whose transmitted
rendezvous name differs from the server's `blockServerName`, makes the
server close the socket with no acknowledgement byte and no event; the
closed connection never processes further arrivals, so `instanceStarted`
is never emitted for it. -/
theorem handshake_mismatch_closes_silently (env : ServerEnv) (conn : ServerConn)
    (chunk nm : List Nat) (ty iid ck : Nat)
    (hc : conn.closed = false)
    (hs : conn.info.stage = ConnectionStage.StageInitBody)
    (hcomp : conn.info.msgLen ≤ ((conn.buf ++ chunk).length : Int))
    (hparse : parseInit (conn.buf ++ chunk) = some (nm, ty, iid, ck))
    (hbad : nm ≠ env.serverName ∨
      ck ≠ qChecksum ((conn.buf ++ chunk).take ((conn.buf ++ chunk).length - 2))) :
    deliver env conn chunk = (⟨conn.info, [], true⟩, [], 0) ∧
    ∀ cs, runDeliveries env ⟨conn.info, [], true⟩ cs = (⟨conn.info, [], true⟩, [], 0) := by
  constructor
  · have hcomplete : isFrameComplete ⟨conn.info, conn.buf ++ chunk, false⟩ = true := by
      simp [isFrameComplete]
      simpa using hcomp
    have hvalid : ¬(nm = env.serverName ∧
        ck = qChecksum ((conn.buf ++ chunk).take ((conn.buf ++ chunk).length - 2))) := by
      intro hboth
      rcases hbad with h | h
      · exact h hboth.1
      · exact h hboth.2
    simp only [deliver, hc, Bool.false_eq_true, if_false, dispatchReadyRead, hs,
      readInitMessageBody, hcomplete, Bool.true_eq_false, if_false, hparse]
    rw [if_neg hvalid]
  · intro cs
    exact runDeliveries_closed env ⟨conn.info, [], true⟩ rfl cs

theorem handshake_mismatch_closes_silently_witness :
    deliver ⟨[65], false⟩
      ⟨⟨12, 0, ConnectionStage.StageInitBody⟩, [], false⟩
      (qbaPut [65] ++ u8 1 ++ u32be 1 ++ u16be 999) =
      (⟨⟨12, 0, ConnectionStage.StageInitBody⟩, [], true⟩, [], 0) :=
  (handshake_mismatch_closes_silently ⟨[65], false⟩
    ⟨⟨12, 0, ConnectionStage.StageInitBody⟩, [], false⟩
    (qbaPut [65] ++ u8 1 ++ u32be 1 ++ u16be 999) [65] 1 1 999
    rfl rfl (by decide) (by decide) (by decide)).1

/-- C3 counterexample: the no-delivery-before-N-bytes property fails for
announced lengths at or above 2^63.  A header announcing N = 2^63 is
stored into the `qint64` length field as a negative number, so the frame
counts as complete at once and the very next 3 bytes are delivered as a
payload even though 3 < N bytes have arrived. -/
theorem announced_length_wrap_early_delivery :
    runDeliveries ⟨[65], false⟩
      ⟨⟨0, 7, ConnectionStage.StageConnectedHeader⟩, [], false⟩
      [u64be 9223372036854775808, [1, 2, 3]] =
      (⟨⟨toQint64 9223372036854775808, 7,
         ConnectionStage.StageConnectedHeader⟩, [], false⟩,
       [AppEvent.receivedMessage 7 [1, 2, 3]], 2) ∧
    (3 : Nat) < 9223372036854775808 := by
  constructor
  · decide
  · decide

/-- C3 (amended): the stage does not change and no delivery event is
emitted while fewer bytes are available than the *stored* `qint64` frame
length, and a payload body is delivered once the stored length many bytes
have arrived; for announced lengths below 2^63 the stored length is the
announced length `N`, so the original claim holds on that range, while an
announced length at or above 2^63 wraps negative and the frame counts as
complete immediately. -/
theorem awaiting_body_no_early_delivery (env : ServerEnv) (conn : ServerConn)
    (chunk : List Nat) (hc : conn.closed = false) :
    ((conn.info.stage = ConnectionStage.StageInitBody ∨
        conn.info.stage = ConnectionStage.StageConnectedBody) →
      (((conn.buf ++ chunk).length : Int) < conn.info.msgLen →
      deliver env conn chunk = (⟨conn.info, conn.buf ++ chunk, false⟩, [], 0))) ∧
    (conn.info.stage = ConnectionStage.StageConnectedBody →
      conn.info.msgLen ≤ ((conn.buf ++ chunk).length : Int) →
      (deliver env conn chunk).2.1 =
        [AppEvent.receivedMessage conn.info.instanceId (conn.buf ++ chunk)]) ∧
    (∀ v : Nat, v < 9223372036854775808 → toQint64 v = (v : Int)) := by
  refine ⟨?_, ?_, ?_⟩
  · intro hstage hshort
    have hincomplete : isFrameComplete ⟨conn.info, conn.buf ++ chunk, false⟩ = false := by
      simp [isFrameComplete]
      simpa using hshort
    rcases hstage with hs | hs
    · simp [deliver, hc, dispatchReadyRead, hs, readInitMessageBody, hincomplete]
    · simp [deliver, hc, dispatchReadyRead, hs, slotDataAvailable, hincomplete]
  · intro hs hlong
    have hcomplete : isFrameComplete ⟨conn.info, conn.buf ++ chunk, false⟩ = true := by
      simp [isFrameComplete]
      simpa using hlong
    simp [deliver, hc, dispatchReadyRead, hs, slotDataAvailable, hcomplete]
  · intro v hv
    simp only [toQint64]
    have := Nat.mod_eq_of_lt (show v < 18446744073709551616 by omega)
    split <;> omega

theorem awaiting_body_no_early_delivery_witness :
    deliver ⟨[65], false⟩
      ⟨⟨5, 7, ConnectionStage.StageConnectedBody⟩, [], false⟩ [1, 2, 3] =
      (⟨⟨5, 7, ConnectionStage.StageConnectedBody⟩, [1, 2, 3], false⟩, [], 0) :=
  (awaiting_body_no_early_delivery ⟨[65], false⟩
    ⟨⟨5, 7, ConnectionStage.StageConnectedBody⟩, [], false⟩ [1, 2, 3] rfl).1
    (Or.inr rfl) (by decide)

/-! ## Local Connector, secondary side (`connectToPrimary`, lines 204-291)

Wall-clock time and socket readiness are external to the program, so they
are supplied by an environment: one observation per retry-loop iteration
(whether the socket reached `ConnectedState` after the attempt, and
`time.elapsed()` at the subsequent checks), the elapsed times read when
budgets are computed, and for each confirmed frame an oracle saying whether
the ack byte arrived within the given millisecond budget (the outcome of
`waitForReadyRead`). -/

inductive SockState
  | UnconnectedState
  | ConnectingState
  | ConnectedState
deriving DecidableEq

/-- `socket == nullptr` creates a fresh socket in `UnconnectedState`. -/
def resolveSock : Option SockState → SockState
  | none => SockState.UnconnectedState
  | some s => s

structure ConnectEnv where
  /-- Per retry-loop iteration: socket connected after the attempt, and
  `time.elapsed()` at the timeout check of that iteration. -/
  iterObs : List (Bool × Nat)
  /-- `time.elapsed()` when the handshake send budget is computed (line 253). -/
  sendElapsed : Nat
  /-- Inner `writeConfirmedMessage` timer at the header-frame send (line 272). -/
  inner1 : Nat
  /-- Inner `writeConfirmedMessage` timer at the body-frame send (line 276). -/
  inner2 : Nat
  /-- Whether the header-frame ack byte arrives within a given budget. -/
  ackHeaderWithin : Int → Bool
  /-- Whether the body-frame ack byte arrives within a given budget. -/
  ackBodyWithin : Int → Bool

/-- The retry loop of `connectToPrimary` (lines 219-236): break once
connected, return failure once `time.elapsed() >= msecs` at the check, else
try again.  `none` means the supplied observations ran out with the loop
still running. -/
def connectLoop (msecs : Int) : List (Bool × Nat) → Option Bool
  | [] => none
  | (conn, elapsed) :: rest =>
      if conn = true then some true
      else if msecs ≤ (elapsed : Int) then some false
      else connectLoop msecs rest

/-- `writeConfirmedFrame` (lines 279-291): write the frame, then block up to
the budget waiting for the ack byte; the oracle says whether it arrived in
time.  Result: success flag and the frames written to the socket. -/
def writeConfirmedFrame (within : Int → Bool) (msecs : Int) (msg : List Nat) :
    Bool × List (List Nat) :=
  (within msecs, [msg])

/-- `writeConfirmedMessage` (lines 261-277): send the 8-byte length header
as a confirmed frame, and only if its ack arrived send the message body as
a second confirmed frame. -/
def writeConfirmedMessage (env : ConnectEnv) (msecs : Int) (msg : List Nat) :
    Bool × List (List Nat) :=
  let header := u64be (msg.length % 18446744073709551616)
  let r1 := writeConfirmedFrame env.ackHeaderWithin (msecs - (env.inner1 : Int)) header
  if r1.1 = true then
    let r2 := writeConfirmedFrame env.ackBodyWithin (msecs - (env.inner2 : Int)) msg
    (r2.1, r1.2 ++ r2.2)
  else (false, r1.2)

/-- `connectToPrimary` (lines 204-254): immediate success if the socket is
already connected; otherwise run the retry loop and, once connected, send
the handshake body through the ack-confirmed two-frame protocol with the
remaining budget.  Result: `some` of the returned Bool (or `none` when the
loop observations ran out), plus the frames written. -/
def connectToPrimary (env : ConnectEnv) (initial : Option SockState) (msecs : Int)
    (name : List Nat) (tyVal inst : Nat) : Option Bool × List (List Nat) :=
  let st := resolveSock initial
  if st = SockState.ConnectedState then (some true, [])
  else
    match connectLoop msecs env.iterObs with
    | none => (none, [])
    | some false => (some false, [])
    | some true =>
        let msg := initMsg name tyVal inst
        let r := writeConfirmedMessage env (msecs - (env.sendElapsed : Int)) msg
        (some r.1, r.2)

/-- When every earlier iteration saw an unconnected socket within the
timeout, the first check that is both unconnected and at or past the
timeout makes the loop report failure. -/
theorem connectLoop_timeout (msecs : Int) (pre rest : List (Bool × Nat)) (e : Nat)
    (hpre : ∀ p ∈ pre, p.1 = false ∧ (p.2 : Int) < msecs)
    (he : msecs ≤ (e : Int)) :
    connectLoop msecs (pre ++ (false, e) :: rest) = some false := by
  induction pre with
  | nil => simp [connectLoop, he]
  | cons p ps ih =>
      have hp := hpre p (by simp)
      have hps : ∀ q ∈ ps, q.1 = false ∧ (q.2 : Int) < msecs :=
        fun q hq => hpre q (by simp [hq])
      rcases p with ⟨b, t⟩
      simp only [List.cons_append, connectLoop]
      have hb : b = false := hp.1
      have ht : ¬ msecs ≤ (t : Int) := by
        have := hp.2
        omega
      simp [hb, ht, ih hps]

/-- C4: with the socket not already connected, `connectToPrimary` returns
false as soon as a timeout check sees elapsed time at or past `msecs`
without a connection, and it returns true only if the retry loop did reach
`ConnectedState` and both the header-frame ack and the body-frame ack of
the handshake arrived within the remaining timeout budgets that the code
derives from `msecs` and the elapsed times. -/
theorem connectToPrimary_timeout_contract (env : ConnectEnv)
    (initial : Option SockState) (msecs : Int) (name : List Nat) (tyVal inst : Nat)
    (h0 : resolveSock initial ≠ SockState.ConnectedState) :
    (∀ (pre rest : List (Bool × Nat)) (e : Nat),
      env.iterObs = pre ++ (false, e) :: rest →
      (∀ p ∈ pre, p.1 = false ∧ (p.2 : Int) < msecs) → msecs ≤ (e : Int) →
      connectToPrimary env initial msecs name tyVal inst = (some false, [])) ∧
    ((connectToPrimary env initial msecs name tyVal inst).1 = some true →
      connectLoop msecs env.iterObs = some true ∧
      env.ackHeaderWithin (msecs - (env.sendElapsed : Int) - (env.inner1 : Int)) = true ∧
      env.ackBodyWithin (msecs - (env.sendElapsed : Int) - (env.inner2 : Int)) = true) := by
  constructor
  · intro pre rest e hobs hpre he
    have hloop := connectLoop_timeout msecs pre rest e hpre he
    simp [connectToPrimary, h0, hobs, hloop]
  · intro htrue
    simp only [connectToPrimary] at htrue
    rw [if_neg h0] at htrue
    rcases hloop : connectLoop msecs env.iterObs with _ | b
    · rw [hloop] at htrue
      simp at htrue
    · rcases b with _ | _
      · rw [hloop] at htrue
        simp at htrue
      · refine ⟨rfl, ?_⟩
        rw [hloop] at htrue
        simp only [writeConfirmedMessage, writeConfirmedFrame] at htrue
        by_cases hh : env.ackHeaderWithin
            (msecs - (env.sendElapsed : Int) - (env.inner1 : Int)) = true
        · rw [if_pos hh] at htrue
          simp only [Option.some.injEq] at htrue
          exact ⟨hh, htrue⟩
        · rw [if_neg hh] at htrue
          simp at htrue

theorem connectToPrimary_timeout_contract_witness :
    connectToPrimary
      ⟨[(false, 7)], 0, 0, 0, fun _ => false, fun _ => false⟩
      (some SockState.UnconnectedState) 5 [65] 1 1 = (some false, []) :=
  (connectToPrimary_timeout_contract
    ⟨[(false, 7)], 0, 0, 0, fun _ => false, fun _ => false⟩
    (some SockState.UnconnectedState) 5 [65] 1 1 (by decide)).1
    [] [] 7 rfl (by simp) (by decide)

/-- C10: when the socket is already in `ConnectedState` on entry,
`connectToPrimary` returns true immediately: no handshake frame is written
and no acknowledgement is awaited (the result is independent of the
environment oracles), for every connection type. -/
theorem connectToPrimary_already_connected (env : ConnectEnv) (msecs : Int)
    (name : List Nat) (tyVal inst : Nat) :
    connectToPrimary env (some SockState.ConnectedState) msecs name tyVal inst =
      (some true, []) := by
  simp [connectToPrimary, resolveSock]

/-- C5 counterexample: the handshake body does not start with the raw bytes
of the rendezvous name.  For name "AB" with connection type 1 and instance
id 1 the body built by `connectToPrimary` differs from the body that claim
C5 describes, because `QDataStream << QByteArray` first writes a 4-byte
length field. -/
theorem initMsg_not_raw_name_first :
    initMsg [65, 66] 1 1 ≠ specInitBody [65, 66] 1 1 := by
  decide

/-- C5 (amended): the handshake body consists of, in order, a 4-byte
big-endian length field holding the rendezvous name's byte count, the raw
name bytes, a 1-byte connection type, a 4-byte instance identifier, and a
2-byte checksum computed over all bytes of the body that precede the
checksum field. -/
theorem initMsg_format (name : List Nat) (tyVal inst : Nat)
    (hi : inst < 4294967296) :
    initMsg name tyVal inst =
      (u32be name.length ++ name ++ u8 tyVal ++ u32be inst) ++
        u16be (qChecksum (u32be name.length ++ name ++ u8 tyVal ++ u32be inst)) ∧
    (initMsg name tyVal inst).take ((initMsg name tyVal inst).length - 2) =
      u32be name.length ++ name ++ u8 tyVal ++ u32be inst := by
  have hmod : inst % 4294967296 = inst := Nat.mod_eq_of_lt hi
  constructor
  · simp [initMsg, qbaPut, hmod, List.append_assoc]
  · have := initMsg_take name tyVal inst hi
    rw [this]
    simp [qbaPut, List.append_assoc]

theorem initMsg_format_witness :
    (1 : Nat) < 4294967296 ∧
    initMsg [65, 66] 1 1 =
      (u32be 2 ++ [65, 66] ++ u8 1 ++ u32be 1) ++
        u16be (qChecksum (u32be 2 ++ [65, 66] ++ u8 1 ++ u32be 1)) :=
  ⟨by decide, (initMsg_format [65, 66] 1 1 (by decide)).1⟩

/-! ## Identity Block (`InstancesInfo`, shared memory)

`struct InstancesInfo { bool primary; quint32 secondary; qint64 primaryPid;
char primaryUser[128]; quint16 checksum; }` with `checksum` last.
`blockChecksum` runs `qChecksum` over the first `offsetof(InstancesInfo,
checksum)` bytes of the block, i.e. over every field before `checksum`.
The in-memory bytes are modelled with the standard layout (1 byte `bool`,
3 alignment padding bytes taken as zero, little-endian integers); every
claim depends only on this being a fixed function of the pre-checksum
fields. -/

structure InstancesInfo where
  primary : Bool
  secondary : Nat
  primaryPid : Int
  primaryUser : List Nat
  checksum : Nat
deriving DecidableEq

/-- Little-endian 4-byte in-memory encoding of a `quint32`. -/
def u32le (n : Nat) : List Nat :=
  [n % 256, n / 256 % 256, n / 65536 % 256, n / 16777216 % 256]

/-- Little-endian 8-byte two's-complement in-memory encoding of a `qint64`. -/
def i64le (n : Int) : List Nat :=
  let m := (n % (18446744073709551616 : Int)).toNat
  [m % 256, m / 256 % 256, m / 65536 % 256, m / 16777216 % 256,
   m / 4294967296 % 256, m / 1099511627776 % 256,
   m / 281474976710656 % 256, m / 72057594037927936 % 256]

/-- The 128-byte `char primaryUser[128]` buffer, padded with zeros. -/
def userBuf (u : List Nat) : List Nat :=
  u.take 128 ++ List.replicate (128 - u.length) 0

/-- The bytes of the block that precede the `checksum` field (all 144 bytes
up to `offsetof(InstancesInfo, checksum)`). -/
def instPreBytes (i : InstancesInfo) : List Nat :=
  [if i.primary then 1 else 0] ++ [0, 0, 0] ++ u32le i.secondary ++
    i64le i.primaryPid ++ userBuf i.primaryUser

/-- `blockChecksum` (lines 293-303): `qChecksum` of every block byte before
the `checksum` field. -/
def blockChecksum (i : InstancesInfo) : Nat := qChecksum (instPreBytes i)

/-- The null-terminated string stored in the user buffer. -/
def userCString (u : List Nat) : List Nat := u.takeWhile (· ≠ 0)

/-- `qstrncpy(dst, src, 128)`: at most 127 bytes of the source string, with
a terminating zero and zero fill. -/
def qstrncpy128 (src : List Nat) : List Nat :=
  let s := (src.takeWhile (· ≠ 0)).take 127
  s ++ List.replicate (128 - s.length) 0

/-- `initializeMemoryBlock` (lines 158-166): fresh block with no primary,
zero secondary count, pid -1, empty user string and recomputed checksum. -/
def initializeMemoryBlock (i : InstancesInfo) : InstancesInfo :=
  let i1 := {i with primary := false, secondary := 0, primaryPid := -1,
                    primaryUser := i.primaryUser.set 0 0}
  {i1 with checksum := blockChecksum i1}

/-- `startPrimary` (block mutation part, lines 171-177): mark the block
primary, record the pid and user, recompute the checksum; the process
instance number becomes 0. -/
def startPrimary (i : InstancesInfo) (pid : Int) (username : List Nat) :
    InstancesInfo × Nat :=
  let i1 := {i with primary := true, primaryPid := pid,
                    primaryUser := qstrncpy128 username}
  ({i1 with checksum := blockChecksum i1}, 0)

/-- `startSecondary` (lines 195-202): increment the `quint32` secondary
counter, recompute the checksum, and record the post-increment counter as
this process's `instanceNumber`. -/
def startSecondary (i : InstancesInfo) : InstancesInfo × Nat :=
  let i1 := {i with secondary := (i.secondary + 1) % 4294967296}
  let i2 := {i1 with checksum := blockChecksum i1}
  (i2, i2.secondary)

/-- The checksum field itself is not part of the checksummed range. -/
theorem blockChecksum_set_checksum (i : InstancesInfo) (c : Nat) :
    blockChecksum {i with checksum := c} = blockChecksum i := by
  simp [blockChecksum, instPreBytes]

/-- C6: the secondary-election step leaves the block with the secondary
counter equal to the old value plus one (as the `quint32` field computes
it, i.e. modulo 2^32), with the checksum field equal to the checksum
recomputed over all bytes preceding it, and with the process's
`instanceNumber` equal to the post-increment counter value. -/
theorem startSecondary_contract (i : InstancesInfo) :
    (startSecondary i).1.secondary = (i.secondary + 1) % 4294967296 ∧
    (startSecondary i).1.checksum = blockChecksum (startSecondary i).1 ∧
    (startSecondary i).2 = (startSecondary i).1.secondary := by
  refine ⟨rfl, ?_, rfl⟩
  simp [startSecondary, blockChecksum, instPreBytes]

/-! ## Primary teardown (`~SingleApplicationPrivate`, lines 62-84)

The destructor trace: close the client socket when one exists; when the
shared memory is attached, take the block lock, and when this process owns
a listener, stop and delete it and restore the block; finally release the
lock and detach the region.  Each block write is recorded together with
whether the lock was held at that moment. -/

inductive BlockField
  | fPrimary
  | fPid
  | fUser
  | fChecksum
deriving DecidableEq

inductive DtorEvent
  | socketClosed
  | lockTaken
  | serverStopped
  | blockWrite (field : BlockField) (lockHeld : Bool)
  | lockReleased
  | memoryDetached
deriving DecidableEq

/-- The block state after the destructor's four writes: no primary, pid -1,
user string truncated to empty, checksum recomputed over the mutated
block. -/
def dtorBlockMutate (i : InstancesInfo) : InstancesInfo :=
  let i1 := {i with primary := false, primaryPid := -1,
                    primaryUser := i.primaryUser.set 0 0}
  {i1 with checksum := blockChecksum i1}

/-- The destructor: events in program order and the final block state.
`hasSocket`, `hasMemory`, `hasServer` are the null-ness of the `socket`,
`memory` and `server` members. -/
def dtorRun (hasSocket hasMemory hasServer : Bool) (i : InstancesInfo) :
    List DtorEvent × InstancesInfo :=
  let sockEvts := if hasSocket = true then [DtorEvent.socketClosed] else []
  if hasMemory = true then
    if hasServer = true then
      (sockEvts ++
        [DtorEvent.lockTaken, DtorEvent.serverStopped,
         DtorEvent.blockWrite BlockField.fPrimary true,
         DtorEvent.blockWrite BlockField.fPid true,
         DtorEvent.blockWrite BlockField.fUser true,
         DtorEvent.blockWrite BlockField.fChecksum true,
         DtorEvent.lockReleased, DtorEvent.memoryDetached],
       dtorBlockMutate i)
    else
      (sockEvts ++ [DtorEvent.lockTaken, DtorEvent.lockReleased,
        DtorEvent.memoryDetached], i)
  else (sockEvts, i)

/-- Scans a destructor trace maintaining the lock state and checks that
every block write happens while the lock is held. -/
def writesUnderLock : Bool → List DtorEvent → Bool
  | _, [] => true
  | _, DtorEvent.lockTaken :: r => writesUnderLock true r
  | _, DtorEvent.lockReleased :: r => writesUnderLock false r
  | l, DtorEvent.blockWrite _ held :: r =>
      (held = l && l = true) && writesUnderLock l r
  | l, _ :: r => writesUnderLock l r

/-- C7: when a process that became primary (it owns a listener, and hence
the attached shared memory) is destroyed, the teardown stops the listener
and leaves the Identity Block with `isPrimary = false`, `primaryProcessId =
-1`, the user field reading as the empty string, and the checksum
recomputed over the mutated block; every block write in the trace happens
while the block lock is held. -/
theorem dtor_primary_teardown (hasSocket : Bool) (i : InstancesInfo) :
    (dtorRun hasSocket true true i).2.primary = false ∧
    (dtorRun hasSocket true true i).2.primaryPid = -1 ∧
    userCString (dtorRun hasSocket true true i).2.primaryUser = [] ∧
    (dtorRun hasSocket true true i).2.checksum =
      blockChecksum (dtorRun hasSocket true true i).2 ∧
    DtorEvent.serverStopped ∈ (dtorRun hasSocket true true i).1 ∧
    writesUnderLock false (dtorRun hasSocket true true i).1 = true := by
  have huser : ∀ u : List Nat, userCString (u.set 0 0) = [] := by
    intro u
    cases u with
    | nil => rfl
    | cons a r => simp [List.set, userCString, List.takeWhile]
  cases hasSocket with
  | false =>
      refine ⟨rfl, rfl, huser _, ?_, ?_, ?_⟩
      · simp [dtorRun, dtorBlockMutate, blockChecksum, instPreBytes]
      · simp [dtorRun]
      · simp [dtorRun, writesUnderLock]
  | true =>
      refine ⟨rfl, rfl, huser _, ?_, ?_, ?_⟩
      · simp [dtorRun, dtorBlockMutate, blockChecksum, instPreBytes]
      · simp [dtorRun]
      · simp [dtorRun, writesUnderLock]

/-- C8 counterexample: the `quint32` secondary counter is not monotone.
With the counter at 4294967295 (= 2^32 - 1), the increment of the
secondary-election step wraps the field to 0, which is a strict decrease
— and a reset to zero performed by an operation other than a new primary
initializing the block. -/
theorem secondary_counter_wraps :
    (startSecondary ⟨false, 4294967295, -1, List.replicate 128 0, 0⟩).1.secondary <
      (InstancesInfo.mk false 4294967295 (-1) (List.replicate 128 0) 0).secondary := by
  decide

/-- C8 (amended): the secondary counter is only ever changed by these
operations, and never decreases except for the 32-bit wraparound of the
increment: secondary election increments it modulo 2^32 (a strict increase
whenever the old value is below 2^32 - 1), a new primary's block
initialization resets it to zero, and becoming primary, a secondary's
exit (no listener) and the primary's teardown leave it unchanged. -/
theorem secondary_counter_changes (i : InstancesInfo) (hasSocket : Bool)
    (pid : Int) (username : List Nat) :
    (startSecondary i).1.secondary = (i.secondary + 1) % 4294967296 ∧
    (i.secondary + 1 < 4294967296 → i.secondary < (startSecondary i).1.secondary) ∧
    (initializeMemoryBlock i).secondary = 0 ∧
    (startPrimary i pid username).1.secondary = i.secondary ∧
    (dtorRun hasSocket true true i).2.secondary = i.secondary ∧
    (dtorRun hasSocket true false i).2.secondary = i.secondary := by
  refine ⟨rfl, ?_, rfl, rfl, ?_, ?_⟩
  · intro h
    have : (startSecondary i).1.secondary = (i.secondary + 1) % 4294967296 := rfl
    rw [this, Nat.mod_eq_of_lt h]
    omega
  · cases hasSocket with
    | false => rfl
    | true => rfl
  · cases hasSocket with
    | false => rfl
    | true => rfl

theorem secondary_counter_changes_witness :
    (5 : Nat) <
      (startSecondary ⟨false, 5, -1, List.replicate 128 0, 0⟩).1.secondary :=
  (secondary_counter_changes ⟨false, 5, -1, List.replicate 128 0, 0⟩ false (-1)
    []).2.1 (by decide)

/-! ## Rendezvous name derivation (`genBlockServerName`, lines 124-156)

`QCryptographicHash::Sha256` and `QByteArray::toBase64` are embedded
concretely: FIPS 180-4 SHA-256 over byte lists, and RFC 2045 Base64 with
padding; the code then replaces the Base64 slash with an underscore. -/

/-- Reduction to a 32-bit word. -/
def w32 (n : Nat) : Nat := n % 4294967296

/-- 32-bit right rotation. -/
def rotr32 (n x : Nat) : Nat := w32 ((x >>> n) ||| (x <<< (32 - n)))

def shaCh (e f g : Nat) : Nat := (e &&& f) ^^^ ((e ^^^ 4294967295) &&& g)

def shaMaj (a b c : Nat) : Nat := (a &&& b) ^^^ (a &&& c) ^^^ (b &&& c)

def bigSigma0 (x : Nat) : Nat := rotr32 2 x ^^^ rotr32 13 x ^^^ rotr32 22 x

def bigSigma1 (x : Nat) : Nat := rotr32 6 x ^^^ rotr32 11 x ^^^ rotr32 25 x

def smallSigma0 (x : Nat) : Nat := rotr32 7 x ^^^ rotr32 18 x ^^^ (x >>> 3)

def smallSigma1 (x : Nat) : Nat := rotr32 17 x ^^^ rotr32 19 x ^^^ (x >>> 10)

def sha256H0 : List Nat :=
  [1779033703, 3144134277, 1013904242, 2773480762,
   1359893119, 2600822924, 528734635, 1541459225]

def sha256K : List Nat :=
  [1116352408, 1899447441, 3049323471, 3921009573, 961987163, 1508970993,
   2453635748, 2870763221, 3624381080, 310598401, 607225278, 1426881987,
   1925078388, 2162078206, 2614888103, 3248222580, 3835390401, 4022224774,
   264347078, 604807628, 770255983, 1249150122, 1555081692, 1996064986,
   2554220882, 2821834349, 2952996808, 3210313671, 3336571891, 3584528711,
   113926993, 338241895, 666307205, 773529912, 1294757372, 1396182291,
   1695183700, 1986661051, 2177026350, 2456956037, 2730485921, 2820302411,
   3259730800, 3345764771, 3516065817, 3600352804, 4094571909, 275423344,
   430227734, 506948616, 659060556, 883997877, 958139571, 1322822218,
   1537002063, 1747873779, 1955562222, 2024104815, 2227730452, 2361852424,
   2428436474, 2756734187, 3204031479, 3329325298]

/-- SHA-256 message padding: append 0x80, zero bytes up to 56 mod 64, then
the 8-byte big-endian bit length. -/
def shaPad (msg : List Nat) : List Nat :=
  let padLen := (64 - (msg.length + 9) % 64) % 64
  msg ++ [0x80] ++ List.replicate padLen 0 ++ u64be (8 * msg.length)

/-- Big-endian 32-bit words of a block. -/
def toWords : List Nat → List Nat
  | a :: b :: c :: d :: rest => (((a * 256 + b) * 256 + c) * 256 + d) :: toWords rest
  | _ => []

/-- Extend the 16-word schedule by `k` further words. -/
def schedExt (w : List Nat) : Nat → List Nat
  | 0 => w
  | k + 1 =>
      let prev := schedExt w k
      let i := prev.length
      prev ++ [w32 (prev.getD (i - 16) 0 + smallSigma0 (prev.getD (i - 15) 0) +
        prev.getD (i - 7) 0 + smallSigma1 (prev.getD (i - 2) 0))]

/-- One compression round on the 8-word working state. -/
def shaRound (w : List Nat) (st : List Nat) (t : Nat) : List Nat :=
  let a := st.getD 0 0
  let b := st.getD 1 0
  let c := st.getD 2 0
  let d := st.getD 3 0
  let e := st.getD 4 0
  let f := st.getD 5 0
  let g := st.getD 6 0
  let hh := st.getD 7 0
  let t1 := w32 (hh + bigSigma1 e + shaCh e f g + sha256K.getD t 0 + w.getD t 0)
  let t2 := w32 (bigSigma0 a + shaMaj a b c)
  [w32 (t1 + t2), a, b, c, w32 (d + t1), e, f, g]

/-- Compress one 64-byte block into the hash state. -/
def shaCompress (h : List Nat) (block : List Nat) : List Nat :=
  let w := schedExt (toWords block) 48
  let st := (List.range 64).foldl (shaRound w) h
  List.zipWith (fun x y => w32 (x + y)) h st

/-- Split into 64-byte blocks (the fuel is an upper bound on the number of
blocks; `shaPad` always produces a multiple of 64 bytes). -/
def chunks64Go : Nat → List Nat → List (List Nat)
  | 0, _ => []
  | _, [] => []
  | fuel + 1, l => l.take 64 :: chunks64Go fuel (l.drop 64)

def chunks64 (l : List Nat) : List (List Nat) := chunks64Go l.length l

/-- SHA-256 of a byte list, as a 32-byte digest. -/
def sha256 (msg : List Nat) : List Nat :=
  let hh := (chunks64 (shaPad msg)).foldl shaCompress sha256H0
  hh.foldr (fun wv acc => u32be wv ++ acc) []

/-- RFC 2045 Base64 encoding with padding (`QByteArray::toBase64`). -/
def b64Alphabet : List Nat :=
  [65, 66, 67, 68, 69, 70, 71, 72, 73, 74, 75, 76, 77, 78, 79, 80, 81, 82,
   83, 84, 85, 86, 87, 88, 89, 90, 97, 98, 99, 100, 101, 102, 103, 104,
   105, 106, 107, 108, 109, 110, 111, 112, 113, 114, 115, 116, 117, 118,
   119, 120, 121, 122, 48, 49, 50, 51, 52, 53, 54, 55, 56, 57, 43, 47]

def b64Char (n : Nat) : Nat := b64Alphabet.getD n 0

def base64Encode : List Nat → List Nat
  | [] => []
  | [b0] =>
      [b64Char (b0 >>> 2), b64Char ((b0 &&& 3) <<< 4), 61, 61]
  | [b0, b1] =>
      [b64Char (b0 >>> 2), b64Char (((b0 &&& 3) <<< 4) ||| (b1 >>> 4)),
       b64Char ((b1 &&& 15) <<< 2), 61]
  | b0 :: b1 :: b2 :: rest =>
      b64Char (b0 >>> 2) :: b64Char (((b0 &&& 3) <<< 4) ||| (b1 >>> 4)) ::
      b64Char (((b1 &&& 15) <<< 2) ||| (b2 >>> 6)) :: b64Char (b2 &&& 63) ::
      base64Encode rest

/-- The application identity inputs and option flags consumed by
`genBlockServerName`; all strings are modelled as their UTF-8 bytes. -/
structure AppIdentity where
  applicationName : List Nat
  organizationName : List Nat
  organizationDomain : List Nat
  applicationVersion : List Nat
  applicationFilePath : List Nat
  username : List Nat
  appDataList : List (List Nat)
  excludeAppVersion : Bool
  excludeAppPath : Bool
  userMode : Bool
deriving DecidableEq

/-- The byte stream fed to the SHA-256 hash by `genBlockServerName`: the
seventeen bytes of "SingleApplication", then the identity fields, the
joined extra app data when non-empty, and the fields selected by the
option flags, all concatenated with no separators. -/
def hashInputBytes (a : AppIdentity) : List Nat :=
  [83, 105, 110, 103, 108, 101, 65, 112, 112, 108, 105, 99, 97, 116, 105,
   111, 110] ++
  a.applicationName ++ a.organizationName ++ a.organizationDomain ++
  (if a.appDataList = [] then [] else a.appDataList.foldl (· ++ ·) []) ++
  (if a.excludeAppVersion = true then [] else a.applicationVersion) ++
  (if a.excludeAppPath = true then [] else a.applicationFilePath) ++
  (if a.userMode = true then a.username else [])

/-- `genBlockServerName`: Base64 of the SHA-256 digest, with the slash
(byte 47) replaced by an underscore (byte 95). -/
def genBlockServerName (a : AppIdentity) : List Nat :=
  (base64Encode (sha256 (hashInputBytes a))).map
    (fun c => if c = 47 then 95 else c)

/-- Sanity check of the SHA-256 embedding against the FIPS 180-4 test
vector for "abc". -/
theorem sha256_abc :
    sha256 [97, 98, 99] =
      [186, 120, 22, 191, 143, 1, 207, 234, 65, 65, 64,
       222, 93, 174, 34, 35, 176, 3, 97, 163, 150, 23,
       122, 156, 180, 16, 255, 97, 242, 0, 21, 173] := by
  decide

/-- C9 counterexample: two different application identities that derive the
same rendezvous name.  The hashed fields are concatenated with no
separators, so application name "AB" with empty organization name feeds
the hash the same byte stream as application name "A" with organization
name "B", and the derived names coincide while the inputs differ. -/
theorem genBlockServerName_collision :
    genBlockServerName
        ⟨[65, 66], [], [], [], [], [], [], false, false, false⟩ =
      genBlockServerName
        ⟨[65], [66], [], [], [], [], [], false, false, false⟩ ∧
    (⟨[65, 66], [], [], [], [], [], [], false, false, false⟩ : AppIdentity) ≠
      ⟨[65], [66], [], [], [], [], [], false, false, false⟩ := by
  constructor
  · have h : hashInputBytes ⟨[65, 66], [], [], [], [], [], [], false, false, false⟩ =
        hashInputBytes ⟨[65], [66], [], [], [], [], [], false, false, false⟩ := by
      decide
    simp [genBlockServerName, h]
  · decide

/-- C9 (amended): the rendezvous name derivation is deterministic — it
depends only on the byte stream obtained by concatenating the selected
identity inputs — so identical identity inputs and option flags always
derive the same `blockServerName`; distinct inputs whose concatenated
streams coincide (the fields are joined without separators) also map to
the same name, so inequality of inputs does not guarantee distinct names. -/
theorem genBlockServerName_deterministic (a b : AppIdentity)
    (h : hashInputBytes a = hashInputBytes b) :
    genBlockServerName a = genBlockServerName b := by
  simp [genBlockServerName, h]

theorem genBlockServerName_deterministic_witness :
    genBlockServerName
        ⟨[72, 105], [], [], [], [], [], [], true, true, false⟩ =
      genBlockServerName
        ⟨[72], [105], [], [], [], [], [], true, true, false⟩ :=
  genBlockServerName_deterministic
    ⟨[72, 105], [], [], [], [], [], [], true, true, false⟩
    ⟨[72], [105], [], [], [], [], [], true, true, false⟩ (by decide)
